import Mathlib

set_option maxRecDepth 8000

/-! Shallow embedding of the MovieAgent conversation core:
`ConversationSummaryMemory.py`, `ToolExecutor.py`, and the retry wrapper and
`run` loop of `agent.py`.  Python dicts are modelled as ordered association
lists with last-write-wins assignment, Python string truthiness as `≠ ""`,
and the external collaborators (the summarization call, the JSON decoder for
tool arguments, the HTTP transport, the regex title extractor) as explicit
function parameters, matching the design's injected-collaborator reading. -/

/-- One chat message dict `\x7b"role": r, "content": c\x7d` (the `Message`
type alias of `ConversationSummaryMemory.py`). -/
structure Message where
  role : String
  content : String
  deriving DecidableEq, Repr

/-- Movie payloads (`movie_data` dicts) modelled as flat field maps; the core
never inspects their internals. -/
abbrev MovieData := List (String × String)

/-- Decoded tool-call arguments (the result of `json.loads` on the
`arguments` blob), modelled as a flat mapping. -/
abbrev Args := List (String × String)

/-- Python dict lookup on an ordered association list. -/
def dictGet (k : String) : List (String × α) → Option α
  | [] => none
  | (k', v) :: rest => if k' = k then some v else dictGet k rest

/-- Python dict assignment `d[k] = v`: replace in place if the key exists
(preserving order), else append. -/
def dictSet (k : String) (v : α) : List (String × α) → List (String × α)
  | [] => [(k, v)]
  | (k', v') :: rest => if k' = k then (k, v) :: rest else (k', v') :: dictSet k v rest

/-- State of `ConversationSummaryMemory`: configuration plus the four
mutable fields. -/
structure Memory where
  max_recent_messages : Nat
  summarize_after : Nat
  summary : String
  history : List Message
  movies_discussed : List String
  movie_context : List (String × MovieData)
  deriving DecidableEq, Repr

/-- `ConversationSummaryMemory.__init__`. -/
def Memory.init (max_recent_messages summarize_after : Nat) : Memory :=
  ⟨max_recent_messages, summarize_after, "", [], [], []⟩

/-- `ConversationSummaryMemory.add_message`. -/
def add_message (m : Memory) (role content : String) : Memory :=
  { m with history := m.history ++ [⟨role, content⟩] }

/-- Python negative-index slice `l[-k:]`.  For `k = 0` Python yields the whole
list (`l[-0:] = l[0:]`); for `k > 0` it yields the last `min k (length l)`
elements. -/
def pySliceLast (k : Nat) (l : List α) : List α :=
  if k = 0 then l else l.drop (l.length - k)

/-- `ConversationSummaryMemory.maybe_summarize`, with the external
`summarize_messages` call passed in as a collaborator. -/
def maybe_summarize (summarize : List Message → String) (m : Memory) : Memory :=
  if m.history.length ≤ m.summarize_after then m
  else
    let new_summary := summarize m.history
    let merged :=
      if m.summary ≠ "" then
        m.summary ++ "\n\nUpdates from later conversation:\n" ++ new_summary
      else new_summary
    { m with
        summary := merged,
        history := pySliceLast m.max_recent_messages m.history }

/-- The fixed instruction appended to the base system prompt in
`build_prompt`. -/
def consistencyNote : String :=
  "\n\nUse the conversation summary (if provided) to stay consistent with past discussion."

/-- The header prepended to the summary system message in `build_prompt`. -/
def summaryHeader : String := "Conversation summary so far:\n"

/-- `ConversationSummaryMemory.build_prompt`, written with the same sequence
of list appends as the source. -/
def build_prompt (m : Memory) (base_system_prompt : String) : List Message :=
  let messages : List Message := []
  let messages := messages ++ [⟨"system", base_system_prompt ++ consistencyNote⟩]
  let messages :=
    if m.summary ≠ "" then
      messages ++ [⟨"system", summaryHeader ++ m.summary⟩]
    else messages
  messages ++ m.history

/-- Modelled from the spec: the prompt shape demanded by the prompt-ordering
contract — one system turn (base prompt plus the fixed consistency
instruction), then the summary system turn exactly when the summary is
non-empty, then the raw history in order, and nothing else. -/
def buildPromptSpec (m : Memory) (base_system_prompt : String) : List Message :=
  ⟨"system", base_system_prompt ++ consistencyNote⟩ ::
    ((if m.summary ≠ "" then [⟨"system", summaryHeader ++ m.summary⟩] else [])
      ++ m.history)

/-- `ConversationSummaryMemory.add_movie_to_context`. -/
def add_movie_to_context (m : Memory) (title : String) (movie_data : MovieData) : Memory :=
  let m1 :=
    if title ≠ "" ∧ title ∉ m.movies_discussed then
      { m with movies_discussed := m.movies_discussed ++ [title] }
    else m
  if title ≠ "" then
    { m1 with movie_context := dictSet title movie_data m1.movie_context }
  else m1

/-- One field of the persisted JSON document. -/
inductive PVal where
  | str (s : String)
  | msgs (l : List Message)
  | strs (l : List String)
  | ctx (l : List (String × MovieData))
  deriving DecidableEq, Repr

/-- The document written by `ConversationSummaryMemory.save_to_file`. -/
def serializeDoc (m : Memory) : List (String × PVal) :=
  [("summary", .str m.summary),
   ("history", .msgs m.history),
   ("movies_discussed", .strs m.movies_discussed),
   ("movie_context", .ctx m.movie_context)]

/-- The field assignments of `load_from_file` on a successfully decoded
document: each field is `data.get(key, default)`. -/
def loadDoc (m : Memory) (data : List (String × PVal)) : Memory :=
  { m with
      summary := (match dictGet "summary" data with | some (.str s) => s | _ => ""),
      history := (match dictGet "history" data with | some (.msgs l) => l | _ => []),
      movies_discussed :=
        (match dictGet "movies_discussed" data with | some (.strs l) => l | _ => []),
      movie_context :=
        (match dictGet "movie_context" data with | some (.ctx l) => l | _ => []) }

/-- What the persistence source can look like when `load_from_file` opens it:
absent (`FileNotFoundError`), undecodable (`json.JSONDecodeError`), or a
decoded document. -/
inductive FileSource where
  | missing
  | corrupt
  | ok (data : List (String × PVal))
  deriving DecidableEq, Repr

/-- The warning printed on `FileNotFoundError`. -/
def fileNotFoundWarning (filename : String) : String :=
  "File " ++ filename ++ " not found. Starting with empty conversation."

/-- The warning printed on `json.JSONDecodeError`. -/
def corruptFileWarning (filename : String) : String :=
  "Error reading " ++ filename ++ ". File may be corrupted."

/-- `ConversationSummaryMemory.load_from_file`: returns the new state and the
warning, if one was printed.  On either exception the handler only prints —
the four fields keep whatever values they had. -/
def load_from_file (m : Memory) (filename : String) (src : FileSource) :
    Memory × Option String :=
  match src with
  | .missing => (m, some (fileNotFoundWarning filename))
  | .corrupt => (m, some (corruptFileWarning filename))
  | .ok data => (loadDoc m data, none)

/-- `ConversationSummaryMemory.save_to_file`: writes the four-field document. -/
def save_to_file (m : Memory) : FileSource := .ok (serializeDoc m)

/-! ### Helper lemmas about strings and dictionaries -/

theorem append_ne_empty_left (a b : String) (h : a ≠ "") : a ++ b ≠ "" := by
  intro hab
  apply h
  have hlen : (a ++ b).length = 0 := by rw [hab]; rfl
  rw [String.length_append] at hlen
  have : a.length = 0 := by omega
  cases a with
  | mk data =>
    cases data with
    | nil => rfl
    | cons c cs => simp [String.length] at this

theorem dictGet_dictSet (k : String) (v : α) (l : List (String × α)) :
    dictGet k (dictSet k v l) = some v := by
  induction l with
  | nil => simp [dictGet, dictSet]
  | cons p rest ih =>
    obtain ⟨k', v'⟩ := p
    by_cases h : k' = k <;> simp [dictGet, dictSet, h, ih]

/-! ### Claim C4: compaction -/

/-- C4: whenever the raw history count exceeds the compaction threshold,
`maybe_summarize` truncates the raw history to exactly the last
`max_recent_messages` turns in order, leaves a non-empty summary, and keeps
any prior summary as a prefix of the merged one (summaries are additive,
never overwritten).  Hypotheses: a positive retention bound not exceeding
the threshold, and a summarizer that produces non-empty text. -/
theorem c4_compaction (summarize : List Message → String) (m : Memory)
    (hover : m.summarize_after < m.history.length)
    (hpos : 0 < m.max_recent_messages)
    (hretain : m.max_recent_messages ≤ m.summarize_after)
    (hsum : summarize m.history ≠ "") :
    (maybe_summarize summarize m).history =
        m.history.drop (m.history.length - m.max_recent_messages) ∧
    (maybe_summarize summarize m).history.length = m.max_recent_messages ∧
    (maybe_summarize summarize m).summary ≠ "" ∧
    (m.summary ≠ "" → ∃ t, (maybe_summarize summarize m).summary = m.summary ++ t) := by
  have hnle : ¬ m.history.length ≤ m.summarize_after := by omega
  have hk0 : m.max_recent_messages ≠ 0 := by omega
  unfold maybe_summarize
  rw [if_neg hnle]
  refine ⟨?_, ?_, ?_, ?_⟩
  · simp [pySliceLast, hk0]
  · simp only [pySliceLast, if_neg hk0, List.length_drop]
    omega
  · by_cases hs : m.summary = ""
    · simpa [hs] using hsum
    · simp only [ne_eq, hs, not_false_eq_true, if_pos]
      exact append_ne_empty_left _ _ (append_ne_empty_left _ _ hs)
  · intro hs
    refine ⟨"\n\nUpdates from later conversation:\n" ++ summarize m.history, ?_⟩
    simp [hs, String.append_assoc]

/-- Concrete memory instance used to witness `c4_compaction`. -/
def c4mem : Memory :=
  { Memory.init 2 2 with
      summary := "old facts",
      history := [⟨"user", "a"⟩, ⟨"assistant", "b"⟩, ⟨"user", "c"⟩] }

theorem c4_compaction_witness :
    (c4mem.summarize_after < c4mem.history.length ∧ 0 < c4mem.max_recent_messages ∧
      c4mem.max_recent_messages ≤ c4mem.summarize_after ∧ (fun _ => "facts") c4mem.history ≠ "") ∧
    ((maybe_summarize (fun _ => "facts") c4mem).history =
        c4mem.history.drop (c4mem.history.length - c4mem.max_recent_messages) ∧
     (maybe_summarize (fun _ => "facts") c4mem).history.length = c4mem.max_recent_messages ∧
     (maybe_summarize (fun _ => "facts") c4mem).summary ≠ "" ∧
     (c4mem.summary ≠ "" → ∃ t, (maybe_summarize (fun _ => "facts") c4mem).summary = c4mem.summary ++ t)) :=
  ⟨⟨by decide, by decide, by decide, by decide⟩,
   c4_compaction (fun _ => "facts") c4mem (by decide) (by decide) (by decide) (by decide)⟩

/-! ### Claim C5: prompt ordering -/

/-- C5: for every memory state and base prompt, `build_prompt` returns
exactly one system turn carrying the base prompt plus the fixed consistency
instruction, then the summary system turn if and only if the summary is
non-empty, then the full raw history in order — and nothing else. -/
theorem c5_prompt_ordering (m : Memory) (base_system_prompt : String) :
    build_prompt m base_system_prompt = buildPromptSpec m base_system_prompt := by
  by_cases h : m.summary = "" <;>
    simp [build_prompt, buildPromptSpec, h]

/-! ### Claim C6: entity recording -/

/-- Fresh memory used in the C6 counterexample. -/
def c6mem : Memory := Memory.init 5 10

/-- C6 counterexample: with the empty key, `add_movie_to_context` does not
upsert the payload — after two calls with key `""` the context has no entry
for `""` at all, so the claimed unconditional last-write-wins fails. -/
theorem c6_counterexample :
    ¬ (dictGet ""
        (add_movie_to_context (add_movie_to_context c6mem "" [("Plot", "x")])
          "" [("Plot", "y")]).movie_context
      = some [("Plot", "y")]) := by decide

/-- C6 (amended): a call with the empty key changes nothing at all; for a
non-empty key, one call appends the key to `movies_discussed` only when it
is not already present, a repeated call never duplicates it, and after two
calls with the same non-empty key the context maps the key to the second
payload (last-write-wins). -/
theorem c6_entity_ops (m : Memory) (k : String) (v v1 v2 : MovieData) (hk : k ≠ "") :
    add_movie_to_context m "" v = m ∧
    (add_movie_to_context m k v1).movies_discussed =
      (if k ∈ m.movies_discussed then m.movies_discussed else m.movies_discussed ++ [k]) ∧
    (add_movie_to_context (add_movie_to_context m k v1) k v2).movies_discussed =
      (if k ∈ m.movies_discussed then m.movies_discussed else m.movies_discussed ++ [k]) ∧
    dictGet k (add_movie_to_context (add_movie_to_context m k v1) k v2).movie_context
      = some v2 := by
  refine ⟨?_, ?_, ?_, ?_⟩
  · simp [add_movie_to_context]
  · by_cases hmem : k ∈ m.movies_discussed <;>
      simp [add_movie_to_context, hk, hmem]
  · by_cases hmem : k ∈ m.movies_discussed <;>
      simp [add_movie_to_context, hk, hmem]
  · by_cases hmem : k ∈ m.movies_discussed <;>
      simp [add_movie_to_context, hk, hmem, dictGet_dictSet]

theorem c6_entity_ops_witness :
    ("Inception" ≠ "" : Prop) ∧
    (add_movie_to_context c6mem "" [("Plot", "z")] = c6mem ∧
     (add_movie_to_context c6mem "Inception" [("Year", "2010")]).movies_discussed =
       (if "Inception" ∈ c6mem.movies_discussed then c6mem.movies_discussed
        else c6mem.movies_discussed ++ ["Inception"]) ∧
     (add_movie_to_context (add_movie_to_context c6mem "Inception" [("Year", "2010")])
         "Inception" [("Year", "2012")]).movies_discussed =
       (if "Inception" ∈ c6mem.movies_discussed then c6mem.movies_discussed
        else c6mem.movies_discussed ++ ["Inception"]) ∧
     dictGet "Inception"
        (add_movie_to_context (add_movie_to_context c6mem "Inception" [("Year", "2010")])
          "Inception" [("Year", "2012")]).movie_context = some [("Year", "2012")]) :=
  ⟨by decide,
   c6_entity_ops c6mem "Inception" [("Plot", "z")] [("Year", "2010")] [("Year", "2012")]
     (by decide)⟩

/-! ### Claim C9: round-trip persistence -/

/-- C9: loading the document that `save_to_file` wrote restores the state
exactly — summary, raw history, `movies_discussed`, and `movie_context` all
equal their pre-serialization values, the configuration fields are
untouched, and no warning is emitted. -/
theorem c9_round_trip (m : Memory) (filename : String) :
    load_from_file m filename (save_to_file m) = (m, none) := by
  cases m
  simp [load_from_file, save_to_file, loadDoc, serializeDoc, dictGet]

/-! ### Claim C10: missing or corrupt persistence source -/

/-- Memory with pre-existing content used in the C10 counterexample. -/
def c10mem : Memory := { Memory.init 5 10 with summary := "known fact" }

/-- C10 counterexample: loading a missing file does not reset the state to
the safe empty default — a pre-existing summary survives untouched, so the
claimed fall-back-to-defaults fails for non-fresh states. -/
theorem c10_counterexample :
    ¬ ((load_from_file c10mem "conversation.json" FileSource.missing).1.summary = "") := by
  decide

/-- C10 (amended): deserializing a missing or corrupt source never raises
and applies nothing partially — it leaves the whole state exactly as it was
(which is the safe empty default precisely when loading into a fresh
memory) and surfaces only a warning. -/
theorem c10_failure_keeps_state (m : Memory) (filename : String) :
    load_from_file m filename .missing = (m, some (fileNotFoundWarning filename)) ∧
    load_from_file m filename .corrupt = (m, some (corruptFileWarning filename)) :=
  ⟨rfl, rfl⟩

/-! ### JSON serialization of error payloads (`json.dumps(\x7b"error": msg\x7d)`) -/

/-- Lowercase hex digit, as CPython's `json` encoder emits. -/
def hexDigit (n : Nat) : Char :=
  if n < 10 then Char.ofNat (48 + n) else Char.ofNat (87 + n)

/-- A `\uXXXX` escape sequence for code unit `n`. -/
def uEsc (n : Nat) : List Char :=
  ['\\', 'u', hexDigit (n / 4096 % 16), hexDigit (n / 256 % 16),
   hexDigit (n / 16 % 16), hexDigit (n % 16)]

/-- CPython `json.dumps` (default `ensure_ascii=True`) escaping of one
character: short escapes for the quote, backslash and common control
characters, `\uXXXX` for other control or non-printable-ASCII characters,
and a surrogate pair for astral code points. -/
def escChar (c : Char) : List Char :=
  if c = '"' then ['\\', '"']
  else if c = '\\' then ['\\', '\\']
  else if c = '\n' then ['\\', 'n']
  else if c = '\t' then ['\\', 't']
  else if c = '\r' then ['\\', 'r']
  else if c = Char.ofNat 8 then ['\\', 'b']
  else if c = Char.ofNat 12 then ['\\', 'f']
  else if c.toNat < 32 then uEsc c.toNat
  else if c.toNat < 127 then [c]
  else if c.toNat < 65536 then uEsc c.toNat
  else uEsc (55296 + (c.toNat - 65536) / 1024) ++ uEsc (56320 + (c.toNat - 65536) % 1024)

/-- Escape a whole character list. -/
def escapeL : List Char → List Char
  | [] => []
  | c :: r => escChar c ++ escapeL r

/-- The ten characters CPython's `json.dumps` emits before the value of the
single-key error object: an opening brace, the quoted key `error`, the colon
and a space. -/
def errObjOpen : List Char :=
  ['{', '"', 'e', 'r', 'r', 'o', 'r', '"', ':', ' ']

/-- `json.dumps(\x7b"error": msg\x7d)`. -/
def pyDumpsErrorObj (msg : String) : String :=
  String.mk (errObjOpen ++ '"' :: (escapeL msg.data ++ ['"', '}']))

/-- Recognizer for one hex digit (either case). -/
def isHex (c : Char) : Bool :=
  (48 ≤ c.toNat && c.toNat ≤ 57) || (97 ≤ c.toNat && c.toNat ≤ 102) ||
    (65 ≤ c.toNat && c.toNat ≤ 70)

/-- Consume the body of a JSON string literal (everything after the opening
quote, up to and including the closing quote); returns the remaining
characters on success. -/
def strBody : List Char → Option (List Char)
  | [] => none
  | c :: r =>
    if c = '"' then some r
    else if c = '\\' then
      match r with
      | [] => none
      | e :: r2 =>
        if e = 'u' then
          match r2 with
          | h1 :: h2 :: h3 :: h4 :: r3 =>
            if isHex h1 && isHex h2 && isHex h3 && isHex h4 then strBody r3 else none
          | _ => none
        else if e = '"' || e = '\\' || e = '/' || e = 'n' || e = 't' || e = 'r'
            || e = 'b' || e = 'f' then strBody r2
        else none
    else if c.toNat < 32 then none
    else strBody r

/-- Syntactic validity of a serialized error payload: an object with the
single key `error` whose value is one well-formed JSON string literal — the
text must read `\x7b"error": ` then a string literal then the closing brace. -/
def checkErrorJson (s : String) : Bool :=
  decide (s.data.take 11 = errObjOpen ++ ['"']) &&
    decide (strBody (s.data.drop 11) = some ['}'])

/-! ### The tool registry (`ToolExecutor`) -/

/-- A registered tool's `invoke`: either a result string or a raised
exception's message. -/
abbrev PyTool := Args → Except String String

/-- `ToolExecutor.execute_tool`: unknown names and raising tools both yield
a serialized error object instead of an exception. -/
def execute_tool (tools : List (String × PyTool)) (tool_name : String) (arguments : Args) :
    String :=
  match dictGet tool_name tools with
  | none => pyDumpsErrorObj ("Tool '" ++ tool_name ++ "' not found")
  | some tool =>
    match tool arguments with
    | .ok result => result
    | .error e => pyDumpsErrorObj ("Tool execution failed: " ++ e)

/-! ### Validity of the serialized error payloads -/

theorem isHex_hexDigit (n : Nat) (h : n < 16) : isHex (hexDigit n) = true := by
  interval_cases n <;> decide

theorem strBody_quote (r : List Char) : strBody ('"' :: r) = some r := by
  rw [strBody.eq_def]; rfl

theorem strBody_u (a b c d : Char) (t : List Char) :
    strBody ('\\' :: 'u' :: a :: b :: c :: d :: t) =
      (if isHex a && isHex b && isHex c && isHex d then strBody t else none) := by
  rw [strBody.eq_def]; rfl

theorem strBody_escQ (t : List Char) : strBody ('\\' :: '"' :: t) = strBody t := by
  rw [strBody.eq_def]; rfl

theorem strBody_escB (t : List Char) : strBody ('\\' :: '\\' :: t) = strBody t := by
  rw [strBody.eq_def]; rfl

theorem strBody_escN (t : List Char) : strBody ('\\' :: 'n' :: t) = strBody t := by
  rw [strBody.eq_def]; rfl

theorem strBody_escT (t : List Char) : strBody ('\\' :: 't' :: t) = strBody t := by
  rw [strBody.eq_def]; rfl

theorem strBody_escR (t : List Char) : strBody ('\\' :: 'r' :: t) = strBody t := by
  rw [strBody.eq_def]; rfl

theorem strBody_escLowB (t : List Char) : strBody ('\\' :: 'b' :: t) = strBody t := by
  rw [strBody.eq_def]; rfl

theorem strBody_escF (t : List Char) : strBody ('\\' :: 'f' :: t) = strBody t := by
  rw [strBody.eq_def]; rfl

theorem strBody_uEsc (n : Nat) (t : List Char) :
    strBody (uEsc n ++ t) = strBody t := by
  have h1 := isHex_hexDigit (n / 4096 % 16) (Nat.mod_lt _ (by norm_num))
  have h2 := isHex_hexDigit (n / 256 % 16) (Nat.mod_lt _ (by norm_num))
  have h3 := isHex_hexDigit (n / 16 % 16) (Nat.mod_lt _ (by norm_num))
  have h4 := isHex_hexDigit (n % 16) (Nat.mod_lt _ (by norm_num))
  show strBody ('\\' :: 'u' :: _ :: _ :: _ :: _ :: t) = strBody t
  rw [strBody_u, h1, h2, h3, h4]
  rfl

theorem strBody_plain (c : Char) (t : List Char)
    (h1 : ¬ c = '"') (h2 : ¬ c = '\\') (h3 : ¬ c.toNat < 32) :
    strBody (c :: t) = strBody t := by
  rw [strBody.eq_def]
  simp only []
  rw [if_neg h1, if_neg h2, if_neg h3]

theorem strBody_escapeL (l : List Char) (rest : List Char) :
    strBody (escapeL l ++ '"' :: rest) = some rest := by
  induction l with
  | nil => simpa [escapeL] using strBody_quote rest
  | cons c r ih =>
    have step : escapeL (c :: r) ++ '"' :: rest = escChar c ++ (escapeL r ++ '"' :: rest) := by
      simp [escapeL]
    rw [step]
    by_cases hq : c = '"'
    · subst hq
      show strBody ('\\' :: '"' :: (escapeL r ++ '"' :: rest)) = some rest
      rw [strBody_escQ, ih]
    · by_cases hb : c = '\\'
      · subst hb
        show strBody ('\\' :: '\\' :: (escapeL r ++ '"' :: rest)) = some rest
        rw [strBody_escB, ih]
      · by_cases hn : c = '\n'
        · subst hn
          show strBody ('\\' :: 'n' :: (escapeL r ++ '"' :: rest)) = some rest
          rw [strBody_escN, ih]
        · by_cases ht : c = '\t'
          · subst ht
            show strBody ('\\' :: 't' :: (escapeL r ++ '"' :: rest)) = some rest
            rw [strBody_escT, ih]
          · by_cases hr : c = '\r'
            · subst hr
              show strBody ('\\' :: 'r' :: (escapeL r ++ '"' :: rest)) = some rest
              rw [strBody_escR, ih]
            · by_cases h8 : c = Char.ofNat 8
              · subst h8
                show strBody ('\\' :: 'b' :: (escapeL r ++ '"' :: rest)) = some rest
                rw [strBody_escLowB, ih]
              · by_cases h12 : c = Char.ofNat 12
                · subst h12
                  show strBody ('\\' :: 'f' :: (escapeL r ++ '"' :: rest)) = some rest
                  rw [strBody_escF, ih]
                · by_cases hc : c.toNat < 32
                  · have : escChar c = uEsc c.toNat := by
                      rw [escChar]
                      rw [if_neg hq, if_neg hb, if_neg hn, if_neg ht, if_neg hr,
                        if_neg h8, if_neg h12, if_pos hc]
                    rw [this, strBody_uEsc, ih]
                  · by_cases ha : c.toNat < 127
                    · have : escChar c = [c] := by
                        rw [escChar]
                        rw [if_neg hq, if_neg hb, if_neg hn, if_neg ht, if_neg hr,
                          if_neg h8, if_neg h12, if_neg hc, if_pos ha]
                      rw [this, List.singleton_append, strBody_plain c _ hq hb hc, ih]
                    · by_cases hu : c.toNat < 65536
                      · have : escChar c = uEsc c.toNat := by
                          rw [escChar]
                          rw [if_neg hq, if_neg hb, if_neg hn, if_neg ht, if_neg hr,
                            if_neg h8, if_neg h12, if_neg hc, if_neg ha, if_pos hu]
                        rw [this, strBody_uEsc, ih]
                      · have : escChar c =
                            uEsc (55296 + (c.toNat - 65536) / 1024)
                              ++ uEsc (56320 + (c.toNat - 65536) % 1024) := by
                          rw [escChar]
                          rw [if_neg hq, if_neg hb, if_neg hn, if_neg ht, if_neg hr,
                            if_neg h8, if_neg h12, if_neg hc, if_neg ha, if_neg hu]
                        rw [this, List.append_assoc, strBody_uEsc, strBody_uEsc, ih]

theorem checkErrorJson_pyDumpsErrorObj (msg : String) :
    checkErrorJson (pyDumpsErrorObj msg) = true := by
  have hsplit : errObjOpen ++ '"' :: (escapeL msg.data ++ ['"', '}']) =
      (errObjOpen ++ ['"']) ++ (escapeL msg.data ++ ['"', '}']) := by simp
  have hlen : (errObjOpen ++ ['"']).length = 11 := by rfl
  have htake : ((errObjOpen ++ ['"']) ++ (escapeL msg.data ++ ['"', '}'])).take 11 =
      errObjOpen ++ ['"'] := by
    rw [← hlen, List.take_left]
  have hdrop : ((errObjOpen ++ ['"']) ++ (escapeL msg.data ++ ['"', '}'])).drop 11 =
      escapeL msg.data ++ ['"', '}'] := by
    rw [← hlen, List.drop_left]
  have hbody : strBody (escapeL msg.data ++ ['"', '}']) = some ['}'] := by
    have h := strBody_escapeL msg.data ['}']
    simpa using h
  show checkErrorJson (String.mk (errObjOpen ++ '"' :: (escapeL msg.data ++ ['"', '}']))) = true
  rw [checkErrorJson]
  show (decide ((errObjOpen ++ '"' :: (escapeL msg.data ++ ['"', '}'])).take 11
      = errObjOpen ++ ['"']) &&
    decide (strBody ((errObjOpen ++ '"' :: (escapeL msg.data ++ ['"', '}'])).drop 11)
      = some ['}'])) = true
  rw [hsplit, htake, hdrop, hbody]
  simp

/-! ### Claim C7 -/

/-- C7: the registry's `execute_tool` never raises; an unknown tool name
yields the serialized payload `\x7b"error": "Tool '<name>' not found"\x7d` and a
tool whose invocation raises with message `m` yields the serialized payload
`\x7b"error": "Tool execution failed: <m>"\x7d`; both results are syntactically
valid JSON objects. -/
theorem c7_execute_tool (tools : List (String × PyTool)) (tool_name : String)
    (arguments : Args) :
    (dictGet tool_name tools = none →
      execute_tool tools tool_name arguments =
          pyDumpsErrorObj ("Tool '" ++ tool_name ++ "' not found") ∧
      checkErrorJson (execute_tool tools tool_name arguments) = true) ∧
    (∀ tool e, dictGet tool_name tools = some tool → tool arguments = .error e →
      execute_tool tools tool_name arguments =
          pyDumpsErrorObj ("Tool execution failed: " ++ e) ∧
      checkErrorJson (execute_tool tools tool_name arguments) = true) := by
  constructor
  · intro habs
    have he : execute_tool tools tool_name arguments =
        pyDumpsErrorObj ("Tool '" ++ tool_name ++ "' not found") := by
      simp [execute_tool, habs]
    exact ⟨he, by rw [he]; exact checkErrorJson_pyDumpsErrorObj _⟩
  · intro tool e hfind hraise
    have he : execute_tool tools tool_name arguments =
        pyDumpsErrorObj ("Tool execution failed: " ++ e) := by
      simp [execute_tool, hfind, hraise]
    exact ⟨he, by rw [he]; exact checkErrorJson_pyDumpsErrorObj _⟩

/-- Concrete registry used to witness `c7_execute_tool`: one tool that
always raises. -/
def c7tools : List (String × PyTool) :=
  [("search_movie_by_title", fun _ => Except.error "boom")]

theorem c7_execute_tool_witness :
    (execute_tool c7tools "nonexistent_tool" [] =
        pyDumpsErrorObj ("Tool '" ++ "nonexistent_tool" ++ "' not found") ∧
      checkErrorJson (execute_tool c7tools "nonexistent_tool" []) = true) ∧
    (execute_tool c7tools "search_movie_by_title" [] =
        pyDumpsErrorObj ("Tool execution failed: " ++ "boom") ∧
      checkErrorJson (execute_tool c7tools "search_movie_by_title" []) = true) :=
  ⟨(c7_execute_tool c7tools "nonexistent_tool" []).1 rfl,
   (c7_execute_tool c7tools "search_movie_by_title" []).2
     (fun _ => Except.error "boom") "boom" rfl rfl⟩

/-! ### The raw model response envelope and the tool-call parser
(`ToolExecutor.parse_tool_calls`).  `Option` distinguishes an absent JSON key
(`none`) from a present one; `tool_calls` uses a second `Option` layer so a
present-but-null field (`some none`) is distinct from an absent one. -/

/-- The `function` member of one raw tool call. -/
structure RawFunction where
  name : String
  arguments : String
  deriving DecidableEq, Repr

/-- One entry of the response's `tool_calls` array.  An absent `function` key
makes the parser's subscript raise `KeyError`. -/
structure RawToolCall where
  id : Option String
  function : Option RawFunction
  deriving DecidableEq, Repr

/-- The `message` object of one choice. -/
structure RawMsg where
  content : Option String
  tool_calls : Option (Option (List RawToolCall))
  deriving DecidableEq, Repr

/-- One entry of the response's `choices` array. -/
structure RawChoice where
  message : Option RawMsg
  deriving DecidableEq, Repr

/-- The raw response envelope returned by the model endpoint. -/
structure RawResponse where
  choices : Option (List RawChoice)
  deriving DecidableEq, Repr

/-- A successfully parsed tool call. -/
structure ParsedCall where
  id : Option String
  name : String
  arguments : Args
  deriving DecidableEq, Repr

/-- The Python exceptions the orchestration code can raise but never
catches. -/
inductive PyErr where
  | indexError
  | typeError
  | keyError
  | attributeError
  deriving DecidableEq, Repr

/-- The default `[\x7b\x7d]` substituted when the `choices` key is absent. -/
def defaultChoices : List RawChoice := [⟨none⟩]

/-- The default `\x7b\x7d` substituted when the `message` key is absent. -/
def emptyRawMsg : RawMsg := ⟨none, none⟩

/-- Appending one decoded entry (or skipping it when `json.loads` failed) in
front of the already-parsed tail. -/
def parseDecodedEntry (id : Option String) (name : String) (decoded : Option Args)
    (parsed : List ParsedCall) : Except PyErr (List ParsedCall) :=
  match decoded with
  | none => .ok parsed
  | some a => .ok (⟨id, name, a⟩ :: parsed)

/-- One step of the `for tool_call in tool_calls` loop of
`parse_tool_calls`: a missing `function` member raises `KeyError` (only
`json.JSONDecodeError` is caught); otherwise a decode failure skips the
entry while the rest of the batch is kept. -/
def parseOneAppend (jloads : String → Option Args) (tc : RawToolCall)
    (tail : Except PyErr (List ParsedCall)) : Except PyErr (List ParsedCall) :=
  match tc.function with
  | none => .error .keyError
  | some f =>
    match tail with
    | .error e => .error e
    | .ok parsed => parseDecodedEntry tc.id f.name (jloads f.arguments) parsed

/-- The full entry loop of `parse_tool_calls`, head first. -/
def parseCalls (jloads : String → Option Args) : List RawToolCall → Except PyErr (List ParsedCall)
  | [] => .ok []
  | tc :: rest => parseOneAppend jloads tc (parseCalls jloads rest)

/-- Pairing the parsed calls with the response's `content` field. -/
def parseWithContent (jloads : String → Option Args) (l : List RawToolCall)
    (content : Option String) : Except PyErr (List ParsedCall × Option String) :=
  match parseCalls jloads l with
  | .error e => .error e
  | .ok calls => .ok (calls, content)

/-- What `for tool_call in message.get("tool_calls", [])` iterates over:
an absent key iterates the default `[]`; a present-but-null field is not
iterable (`TypeError`, returned as `none` here). -/
def iterToolCalls : Option (Option (List RawToolCall)) → Option (List RawToolCall)
  | none => some []
  | some none => none
  | some (some l) => some l

/-- Parsing the first choice's message. -/
def parseMessage (jloads : String → Option Args) (message : RawMsg) :
    Except PyErr (List ParsedCall × Option String) :=
  match iterToolCalls message.tool_calls with
  | none => .error .typeError
  | some l => parseWithContent jloads l message.content

/-- `ToolExecutor.parse_tool_calls`, with `json.loads` injected.
`response.get("choices", [\x7b\x7d])[0]` raises `IndexError` when the key is
present with an empty list. -/
def parse_tool_calls (jloads : String → Option Args) (response : RawResponse) :
    Except PyErr (List ParsedCall × Option String) :=
  match response.choices.getD defaultChoices with
  | [] => .error .indexError
  | choice :: _ => parseMessage jloads (choice.message.getD emptyRawMsg)

/-! ### Claim C8 -/

/-- A well-formed tool-call entry together with the decoding of its
arguments blob. -/
structure GoodEntry where
  id : Option String
  name : String
  argStr : String
  argVal : Args
  deriving DecidableEq, Repr

/-- The raw envelope entry of a well-formed tool call. -/
def GoodEntry.toRaw (e : GoodEntry) : RawToolCall := ⟨e.id, some ⟨e.name, e.argStr⟩⟩

/-- The parser output the claim expects for a well-formed entry. -/
def GoodEntry.toParsed (e : GoodEntry) : ParsedCall := ⟨e.id, e.name, e.argVal⟩

theorem parseCalls_nil (jloads : String → Option Args) : parseCalls jloads [] = .ok [] := rfl

theorem parseCalls_cons_good (jloads : String → Option Args) (e : GoodEntry)
    (rest : List RawToolCall) (he : jloads e.argStr = some e.argVal) :
    parseCalls jloads (e.toRaw :: rest) =
      (parseCalls jloads rest).map (fun tail => e.toParsed :: tail) := by
  cases h : parseCalls jloads rest with
  | error er =>
    show parseOneAppend jloads e.toRaw (parseCalls jloads rest) = _
    rw [h]
    rfl
  | ok tail =>
    show parseOneAppend jloads e.toRaw (parseCalls jloads rest) = _
    rw [h]
    show parseDecodedEntry e.id e.name (jloads e.argStr) tail = _
    rw [he]
    rfl

theorem parseCalls_skip (jloads : String → Option Args) (bad : RawToolCall)
    (badF : RawFunction) (rest : List RawToolCall)
    (hf : bad.function = some badF) (hargs : jloads badF.arguments = none) :
    parseCalls jloads (bad :: rest) = parseCalls jloads rest := by
  obtain ⟨bid, bfn⟩ := bad
  replace hf : bfn = some badF := hf
  subst hf
  cases h : parseCalls jloads rest with
  | error er =>
    show parseOneAppend jloads ⟨bid, some badF⟩ (parseCalls jloads rest) = _
    rw [h]
    rfl
  | ok tail =>
    show parseOneAppend jloads ⟨bid, some badF⟩ (parseCalls jloads rest) = _
    rw [h]
    show parseDecodedEntry bid badF.name (jloads badF.arguments) tail = _
    rw [hargs]
    rfl

theorem parseCalls_good (jloads : String → Option Args) (goods : List GoodEntry)
    (rest : List RawToolCall)
    (hg : ∀ e ∈ goods, jloads e.argStr = some e.argVal) :
    parseCalls jloads (goods.map GoodEntry.toRaw ++ rest) =
      (parseCalls jloads rest).map (fun tail => goods.map GoodEntry.toParsed ++ tail) := by
  induction goods with
  | nil => cases h : parseCalls jloads rest <;> simp [h, Except.map]
  | cons e es ih =>
    have he : jloads e.argStr = some e.argVal := hg e (by simp)
    have ih' := ih (fun x hx => hg x (by simp [hx]))
    simp only [List.map_cons, List.cons_append]
    rw [parseCalls_cons_good jloads e _ he, ih']
    cases h : parseCalls jloads rest <;> simp [h, Except.map]

/-- C8: when a response carries a batch of tool-call entries of which exactly
one has an arguments blob that fails to decode, the parser returns all the
other entries, in their original order, each with its id, name and decoded
arguments, together with the response's content; the malformed entry is
skipped without raising and without aborting the batch. -/
theorem c8_parser_skips_malformed (jloads : String → Option Args)
    (pre post : List GoodEntry) (bad : RawToolCall) (badF : RawFunction)
    (content : Option String) (restChoices : List RawChoice)
    (hpre : ∀ e ∈ pre, jloads e.argStr = some e.argVal)
    (hpost : ∀ e ∈ post, jloads e.argStr = some e.argVal)
    (hbadf : bad.function = some badF)
    (hbad : jloads badF.arguments = none) :
    parse_tool_calls jloads
      ⟨some (⟨some ⟨content,
          some (some (pre.map GoodEntry.toRaw ++ bad :: post.map GoodEntry.toRaw))⟩⟩
        :: restChoices)⟩
      = .ok (pre.map GoodEntry.toParsed ++ post.map GoodEntry.toParsed, content) := by
  have hcalls : parseCalls jloads (pre.map GoodEntry.toRaw ++ bad :: post.map GoodEntry.toRaw)
      = .ok (pre.map GoodEntry.toParsed ++ post.map GoodEntry.toParsed) := by
    rw [parseCalls_good jloads pre _ hpre,
      parseCalls_skip jloads bad badF _ hbadf hbad]
    have := parseCalls_good jloads post [] hpost
    rw [List.append_nil] at this
    rw [this, parseCalls_nil]
    simp [Except.map]
  show parseWithContent jloads
      (pre.map GoodEntry.toRaw ++ bad :: post.map GoodEntry.toRaw) content = _
  unfold parseWithContent
  rw [hcalls]

/-- Concrete decoder used to witness `c8_parser_skips_malformed`. -/
def c8jloads : String → Option Args :=
  fun s => if s = "good" then some [("title", "Inception")] else none

/-- The two well-formed entries of the C8 witness. -/
def c8pre : List GoodEntry := [⟨some "call_1", "search_movie_by_title", "good", [("title", "Inception")]⟩]

/-- The trailing well-formed entry of the C8 witness. -/
def c8post : List GoodEntry := [⟨some "call_3", "get_movie_ratings", "good", [("title", "Inception")]⟩]

/-- The malformed entry of the C8 witness: its arguments blob fails to
decode. -/
def c8bad : RawToolCall := ⟨some "call_2", some ⟨"compare_movies", "oops"⟩⟩

theorem c8_parser_skips_malformed_witness :
    parse_tool_calls c8jloads
      ⟨some (⟨some ⟨some "thinking",
          some (some (c8pre.map GoodEntry.toRaw ++ c8bad :: c8post.map GoodEntry.toRaw))⟩⟩
        :: [])⟩
      = .ok (c8pre.map GoodEntry.toParsed ++ c8post.map GoodEntry.toParsed, some "thinking") :=
  c8_parser_skips_malformed c8jloads c8pre c8post c8bad ⟨"compare_movies", "oops"⟩
    (some "thinking") [] (by decide) (by decide) rfl (by decide)

/-! ### The retry wrapper (`CinematographyAgent._call_llm_with_retry`) and
the orchestrating `run` loop.  The HTTP transport is a collaborator mapping
the attempt index to either a response or a `RequestException` message; time
units slept are collected rather than elapsed. -/

/-- Outcome of the retry wrapper: a response, the terminal
`Exception` message, or the implicit `None` Python returns when the loop
body never runs (`max_retries = 0`). -/
inductive RetryResult where
  | ok (response : RawResponse)
  | err (msg : String)
  | noneRet
  deriving DecidableEq, Repr

/-- The terminal failure message
`f"LLM API failed after \x7bmax_retries\x7d retries: \x7be\x7d"`. -/
def failAfterMsg (max_retries : Nat) (e : String) : String :=
  "LLM API failed after " ++ toString max_retries ++ " retries: " ++ e

/-- The `except` branch of one retry-loop iteration: on the last attempt,
raise the terminal failure; otherwise sleep `2 ** attempt` and combine with
the outcome of the remaining attempts. -/
def retryStep (max_retries attempt : Nat) (e : String)
    (res : RetryResult × List Nat × Nat) : RetryResult × List Nat × Nat :=
  if attempt = max_retries - 1 then (.err (failAfterMsg max_retries e), [], 1)
  else (res.1, 2 ^ attempt :: res.2.1, res.2.2 + 1)

/-- The `for attempt in range(max_retries)` loop of
`_call_llm_with_retry`, returning the outcome, the list of back-off delays
slept (in order), and the number of transport attempts made. -/
def retryAux (transport : Nat → Except String RawResponse) (max_retries : Nat) :
    Nat → Nat → RetryResult × List Nat × Nat
  | 0, _ => (.noneRet, [], 0)
  | fuel + 1, attempt =>
    match transport attempt with
    | .ok r => (.ok r, [], 1)
    | .error e => retryStep max_retries attempt e (retryAux transport max_retries fuel (attempt + 1))

/-- `CinematographyAgent._call_llm_with_retry`. -/
def call_llm_with_retry (transport : Nat → Except String RawResponse)
    (max_retries : Nat) : RetryResult × List Nat × Nat :=
  retryAux transport max_retries max_retries 0

/-- One entry of the `messages` list `run` sends to the model: a plain
prompt turn, the raw assistant message appended when it requested tools, or
a tool-result turn. -/
inductive PromptMsg where
  | plain (m : Message)
  | assistantRaw (m : RawMsg)
  | tool (tool_call_id : Option String) (content : String)
  deriving DecidableEq, Repr

/-- The fallback when the final response has empty or null content. -/
def noResponseMsg : String := "I apologize, I couldn't generate a response."

/-- The fixed circuit-breaker answer when the iteration limit is
exhausted. -/
def iterationLimitMsg : String :=
  "I apologize, but I couldn't complete the task within the iteration limit."

/-- Python `content or fallback`: `None` and the empty string are falsy. -/
def pyOr (content : Option String) (fallback : String) : String :=
  match content with
  | some c => if c = "" then fallback else c
  | none => fallback

/-- The post-final-answer heuristic title merge of `run`: each extracted
title not already tracked is appended to `movies_discussed` (the regex
extractor itself is a collaborator). -/
def addExtractedTitles : List String → Memory → Memory
  | [], m => m
  | t :: ts, m =>
    addExtractedTitles ts
      (if t ∈ m.movies_discussed then m
       else { m with movies_discussed := m.movies_discussed ++ [t] })

/-- The movie-tracking block after one tool execution: `track` models the
`json.loads`-and-inspect step, yielding the title and payload exactly when
the result decodes to a success carrying a movie with a truthy title; all
its failures are swallowed (`except: pass`). -/
def trackResult (track : String → Option (String × MovieData)) (result : String)
    (mem : Memory) : Memory :=
  match track result with
  | some p => add_movie_to_context mem p.1 p.2
  | none => mem

/-- The per-iteration tool-execution loop of `run`: execute each parsed call
in order, append a tool turn with the result, and track any successful movie
payload the result decodes to. -/
def execCalls (tools : List (String × PyTool))
    (track : String → Option (String × MovieData)) :
    List ParsedCall → List PromptMsg → Memory → List PromptMsg × Memory
  | [], msgs, mem => (msgs, mem)
  | c :: rest, msgs, mem =>
    let result := execute_tool tools c.name c.arguments
    execCalls tools track rest (msgs ++ [.tool c.id result])
      (trackResult track result mem)

/-- `response["choices"][0]["message"]`, the direct subscripts `run` uses
when appending the assistant turn: each can raise. -/
def getAssistantMsg (response : RawResponse) : Except PyErr RawMsg :=
  match response.choices with
  | none => .error .keyError
  | some [] => .error .indexError
  | some (choice :: _) =>
    match choice.message with
    | none => .error .keyError
    | some m => .ok m

/-- The no-tool-calls terminal branch of one `run` iteration: the final
answer (with the falsy-content fallback), the assistant turn appended to
memory, and the best-effort title extraction over the user input. -/
def runLoopFinalAnswer (extract : String → List String) (user_input : String)
    (content : Option String) (iteration : Nat) (mem : Memory) :
    Except PyErr (Nat × Memory × String) :=
  let final_answer := pyOr content noResponseMsg
  .ok (iteration + 1,
    addExtractedTitles (extract user_input) (add_message mem "assistant" final_answer),
    final_answer)

/-- The tool-calls branch of one `run` iteration: append the raw assistant
message (its direct subscripts can raise), execute the batch, continue. -/
def runLoopToolPhase (tools : List (String × PyTool))
    (track : String → Option (String × MovieData)) (response : RawResponse)
    (tool_calls : List ParsedCall) (iteration : Nat) (msgs : List PromptMsg)
    (mem : Memory)
    (recur : Nat → List PromptMsg → Memory → Except PyErr (Nat × Memory × String)) :
    Except PyErr (Nat × Memory × String) :=
  match getAssistantMsg response with
  | .error pe => .error pe
  | .ok am =>
    let step := execCalls tools track tool_calls (msgs ++ [.assistantRaw am]) mem
    recur (iteration + 1) step.1 step.2

/-- Dispatch on the parsed response: empty tool calls finalize, otherwise
the tool phase runs. -/
def runLoopParsed (tools : List (String × PyTool))
    (track : String → Option (String × MovieData)) (extract : String → List String)
    (user_input : String) (response : RawResponse)
    (pc : List ParsedCall × Option String) (iteration : Nat) (msgs : List PromptMsg)
    (mem : Memory)
    (recur : Nat → List PromptMsg → Memory → Except PyErr (Nat × Memory × String)) :
    Except PyErr (Nat × Memory × String) :=
  if pc.1 = [] then runLoopFinalAnswer extract user_input pc.2 iteration mem
  else runLoopToolPhase tools track response pc.1 iteration msgs mem recur

/-- Dispatch on the retry wrapper's outcome: a terminal failure becomes one
assistant error turn (the `except Exception` handler of `run`); the `None`
return of an empty retry loop makes the parser's attribute access raise; a
response is parsed, uncaught parse exceptions propagating. -/
def runLoopResp (jloads : String → Option Args) (tools : List (String × PyTool))
    (track : String → Option (String × MovieData)) (extract : String → List String)
    (user_input : String) (outcome : RetryResult) (iteration : Nat)
    (msgs : List PromptMsg) (mem : Memory)
    (recur : Nat → List PromptMsg → Memory → Except PyErr (Nat × Memory × String)) :
    Except PyErr (Nat × Memory × String) :=
  match outcome with
  | .err e =>
    .ok (iteration + 1, add_message mem "assistant" ("Error: " ++ e), "Error: " ++ e)
  | .noneRet => .error .attributeError
  | .ok response =>
    match parse_tool_calls jloads response with
    | .error pe => .error pe
    | .ok pc =>
      runLoopParsed tools track extract user_input response pc iteration msgs mem recur

/-- The `while iteration < max_iterations` loop of `run`, recursing on the
remaining iterations.  Returns the number of iterations performed, the final
memory, and the returned text; a `PyErr` models an uncaught exception
escaping `run`. -/
def runLoop (tf : Nat → Nat → Except String RawResponse)
    (jloads : String → Option Args) (tools : List (String × PyTool))
    (extract : String → List String) (track : String → Option (String × MovieData))
    (max_retries : Nat) (user_input : String) :
    Nat → Nat → List PromptMsg → Memory → Except PyErr (Nat × Memory × String)
  | 0, iteration, _, mem =>
    .ok (iteration, add_message mem "assistant" iterationLimitMsg, iterationLimitMsg)
  | fuel + 1, iteration, msgs, mem =>
    runLoopResp jloads tools track extract user_input
      (call_llm_with_retry (tf iteration) max_retries).1 iteration msgs mem
      (fun it ms me =>
        runLoop tf jloads tools extract track max_retries user_input fuel it ms me)

/-- `CinematographyAgent.run`: append the user turn, maybe compact, build
the prompt, then iterate. -/
def run (tf : Nat → Nat → Except String RawResponse)
    (jloads : String → Option Args) (tools : List (String × PyTool))
    (extract : String → List String) (track : String → Option (String × MovieData))
    (summarize : List Message → String) (max_retries : Nat)
    (mem : Memory) (system_prompt user_input : String) (max_iterations : Nat) :
    Except PyErr (Nat × Memory × String) :=
  let mem1 := add_message mem "user" user_input
  let mem2 := maybe_summarize summarize mem1
  let msgs := (build_prompt mem2 system_prompt).map PromptMsg.plain
  runLoop tf jloads tools extract track max_retries user_input
    max_iterations 0 msgs mem2

/-! ### Unfolding equations and invariants for the retry wrapper and loop -/

theorem retryAux_succ_eq (tr : Nat → Except String RawResponse) (mr fuel a : Nat) :
    retryAux tr mr (fuel + 1) a =
      (match tr a with
       | .ok r => ((.ok r : RetryResult), ([] : List Nat), (1 : Nat))
       | .error e => retryStep mr a e (retryAux tr mr fuel (a + 1))) := rfl

theorem call_retry_first_ok (tr : Nat → Except String RawResponse) (mr : Nat)
    (r : RawResponse) (h1 : 1 ≤ mr) (hok : tr 0 = .ok r) :
    (call_llm_with_retry tr mr).1 = .ok r := by
  obtain ⟨n, rfl⟩ : ∃ n, mr = n + 1 := ⟨mr - 1, by omega⟩
  unfold call_llm_with_retry
  rw [retryAux_succ_eq, hok]

theorem retryAux_fail (tr : Nat → Except String RawResponse) (mr : Nat) (e : Nat → String)
    (hfail : ∀ k, tr k = .error (e k)) :
    ∀ fuel a, a + fuel = mr → 1 ≤ fuel →
      retryAux tr mr fuel a =
        (.err (failAfterMsg mr (e (mr - 1))),
         (List.range' a (fuel - 1)).map (fun k => 2 ^ k), fuel) := by
  intro fuel
  induction fuel with
  | zero => intro a _ h; omega
  | succ f ihf =>
    intro a hsum _
    rw [retryAux_succ_eq, hfail a]
    show retryStep mr a (e a) (retryAux tr mr f (a + 1)) = _
    by_cases hf : f = 0
    · subst hf
      have ha : a = mr - 1 := by omega
      unfold retryStep
      rw [if_pos ha, ha]
      simp [List.range']
    · have ha : ¬ a = mr - 1 := by omega
      unfold retryStep
      rw [if_neg ha, ihf (a + 1) (by omega) (by omega)]
      have hrange : List.range' a f = a :: List.range' (a + 1) (f - 1) := by
        conv_lhs => rw [show f = (f - 1) + 1 by omega]
        exact List.range'_succ a (f - 1) 1
      simp [hrange]

theorem runLoop_zero_eq (tf : Nat → Nat → Except String RawResponse)
    (jloads : String → Option Args) (tools : List (String × PyTool))
    (extract : String → List String) (track : String → Option (String × MovieData))
    (mr : Nat) (u : String) (iteration : Nat) (msgs : List PromptMsg) (mem : Memory) :
    runLoop tf jloads tools extract track mr u 0 iteration msgs mem =
      .ok (iteration, add_message mem "assistant" iterationLimitMsg, iterationLimitMsg) := rfl

theorem runLoop_succ_eq (tf : Nat → Nat → Except String RawResponse)
    (jloads : String → Option Args) (tools : List (String × PyTool))
    (extract : String → List String) (track : String → Option (String × MovieData))
    (mr : Nat) (u : String) (fuel iteration : Nat) (msgs : List PromptMsg) (mem : Memory) :
    runLoop tf jloads tools extract track mr u (fuel + 1) iteration msgs mem =
      runLoopResp jloads tools track extract u
        (call_llm_with_retry (tf iteration) mr).1 iteration msgs mem
        (fun it ms me => runLoop tf jloads tools extract track mr u fuel it ms me) := rfl

theorem runLoopResp_err_eq (jloads : String → Option Args) (tools : List (String × PyTool))
    (track : String → Option (String × MovieData)) (extract : String → List String)
    (u e : String) (iteration : Nat) (msgs : List PromptMsg) (mem : Memory)
    (recur : Nat → List PromptMsg → Memory → Except PyErr (Nat × Memory × String)) :
    runLoopResp jloads tools track extract u (.err e) iteration msgs mem recur =
      .ok (iteration + 1, add_message mem "assistant" ("Error: " ++ e), "Error: " ++ e) := rfl

theorem runLoopResp_ok_eq (jloads : String → Option Args) (tools : List (String × PyTool))
    (track : String → Option (String × MovieData)) (extract : String → List String)
    (u : String) (response : RawResponse) (iteration : Nat) (msgs : List PromptMsg)
    (mem : Memory)
    (recur : Nat → List PromptMsg → Memory → Except PyErr (Nat × Memory × String)) :
    runLoopResp jloads tools track extract u (.ok response) iteration msgs mem recur =
      (match parse_tool_calls jloads response with
       | .error pe => .error pe
       | .ok pc =>
         runLoopParsed tools track extract u response pc iteration msgs mem recur) := rfl

theorem runLoopToolPhase_ok (tools : List (String × PyTool))
    (track : String → Option (String × MovieData)) (response : RawResponse)
    (tool_calls : List ParsedCall) (iteration : Nat) (msgs : List PromptMsg)
    (mem : Memory)
    (recur : Nat → List PromptMsg → Memory → Except PyErr (Nat × Memory × String))
    (am : RawMsg) (ham : getAssistantMsg response = .ok am) :
    runLoopToolPhase tools track response tool_calls iteration msgs mem recur =
      recur (iteration + 1)
        (execCalls tools track tool_calls (msgs ++ [.assistantRaw am]) mem).1
        (execCalls tools track tool_calls (msgs ++ [.assistantRaw am]) mem).2 := by
  unfold runLoopToolPhase
  rw [ham]

theorem add_movie_history (m : Memory) (title : String) (d : MovieData) :
    (add_movie_to_context m title d).history = m.history := by
  unfold add_movie_to_context
  split_ifs <;> rfl

theorem trackResult_history (track : String → Option (String × MovieData)) (r : String)
    (mem : Memory) : (trackResult track r mem).history = mem.history := by
  unfold trackResult
  cases track r with
  | none => rfl
  | some p => exact add_movie_history mem p.1 p.2

theorem execCalls_cons_eq (tools : List (String × PyTool))
    (track : String → Option (String × MovieData)) (c : ParsedCall)
    (rest : List ParsedCall) (msgs : List PromptMsg) (mem : Memory) :
    execCalls tools track (c :: rest) msgs mem =
      execCalls tools track rest
        (msgs ++ [.tool c.id (execute_tool tools c.name c.arguments)])
        (trackResult track (execute_tool tools c.name c.arguments) mem) := rfl

theorem execCalls_memory_history (tools : List (String × PyTool))
    (track : String → Option (String × MovieData)) (calls : List ParsedCall) :
    ∀ (msgs : List PromptMsg) (mem : Memory),
      (execCalls tools track calls msgs mem).2.history = mem.history := by
  induction calls with
  | nil => intro msgs mem; rfl
  | cons c rest ih =>
    intro msgs mem
    rw [execCalls_cons_eq, ih, trackResult_history]

theorem getAssistant_of_parse (jloads : String → Option Args) (response : RawResponse)
    (calls : List ParsedCall) (content : Option String)
    (hp : parse_tool_calls jloads response = .ok (calls, content))
    (hne : calls ≠ []) : ∃ am, getAssistantMsg response = .ok am := by
  obtain ⟨choices⟩ := response
  cases choices with
  | none =>
    have h0 : parse_tool_calls jloads ⟨none⟩ = .ok ([], none) := rfl
    rw [h0] at hp
    simp only [Except.ok.injEq, Prod.mk.injEq] at hp
    exact absurd hp.1.symm hne
  | some l =>
    cases l with
    | nil =>
      have h0 : parse_tool_calls jloads ⟨some []⟩ = .error .indexError := rfl
      rw [h0] at hp
      exact absurd hp (by simp)
    | cons choice restCh =>
      obtain ⟨omsg⟩ := choice
      cases omsg with
      | none =>
        have h0 : parse_tool_calls jloads ⟨some (⟨none⟩ :: restCh)⟩ = .ok ([], none) := rfl
        rw [h0] at hp
        simp only [Except.ok.injEq, Prod.mk.injEq] at hp
        exact absurd hp.1.symm hne
      | some m => exact ⟨m, rfl⟩

theorem runLoop_limit (tf : Nat → Nat → Except String RawResponse)
    (jloads : String → Option Args) (tools : List (String × PyTool))
    (extract : String → List String) (track : String → Option (String × MovieData))
    (max_retries : Nat) (u : String)
    (resp : Nat → RawResponse) (calls : Nat → List ParsedCall)
    (content : Nat → Option String)
    (hret : 1 ≤ max_retries)
    (hgw : ∀ i, tf i 0 = .ok (resp i))
    (hparse : ∀ i, parse_tool_calls jloads (resp i) = .ok (calls i, content i))
    (hne : ∀ i, calls i ≠ []) :
    ∀ fuel iteration msgs mem, ∃ mf,
      runLoop tf jloads tools extract track max_retries u fuel iteration msgs mem
        = .ok (iteration + fuel, mf, iterationLimitMsg) ∧
      mf.history = mem.history ++ [⟨"assistant", iterationLimitMsg⟩] := by
  intro fuel
  induction fuel with
  | zero =>
    intro iteration msgs mem
    refine ⟨add_message mem "assistant" iterationLimitMsg, ?_, rfl⟩
    rw [runLoop_zero_eq, Nat.add_zero]
  | succ f ih =>
    intro iteration msgs mem
    have hcall : (call_llm_with_retry (tf iteration) max_retries).1 = .ok (resp iteration) :=
      call_retry_first_ok (tf iteration) max_retries (resp iteration) hret (hgw iteration)
    obtain ⟨am, ham⟩ := getAssistant_of_parse jloads (resp iteration) (calls iteration)
      (content iteration) (hparse iteration) (hne iteration)
    rw [runLoop_succ_eq, hcall, runLoopResp_ok_eq, hparse iteration]
    show ∃ mf, runLoopParsed tools track extract u (resp iteration)
        (calls iteration, content iteration) iteration msgs mem
        (fun it ms me => runLoop tf jloads tools extract track max_retries u f it ms me)
        = .ok (iteration + (f + 1), mf, iterationLimitMsg) ∧
      mf.history = mem.history ++ [⟨"assistant", iterationLimitMsg⟩]
    unfold runLoopParsed
    rw [if_neg (hne iteration : ¬ ((calls iteration, content iteration).1 = []))]
    rw [runLoopToolPhase_ok tools track (resp iteration) _ iteration msgs mem _ am ham]
    obtain ⟨mf, h1, h2⟩ := ih (iteration + 1)
      (execCalls tools track (calls iteration, content iteration).1
        (msgs ++ [.assistantRaw am]) mem).1
      (execCalls tools track (calls iteration, content iteration).1
        (msgs ++ [.assistantRaw am]) mem).2
    refine ⟨mf, ?_, ?_⟩
    · have harith : iteration + 1 + f = iteration + (f + 1) := by omega
      rw [← harith]
      exact h1
    · rw [h2, execCalls_memory_history]

/-! ### Claim C2 -/

/-- C2: for a gateway that returns at least one successfully parsed tool
call on every iteration, `run` terminates after exactly `max_iterations`
iterations, appends one fixed apology assistant turn to memory, and returns
that fixed text; it never loops indefinitely and never raises. -/
theorem c2_iteration_limit (tf : Nat → Nat → Except String RawResponse)
    (jloads : String → Option Args) (tools : List (String × PyTool))
    (extract : String → List String) (track : String → Option (String × MovieData))
    (summarize : List Message → String) (max_retries : Nat)
    (mem : Memory) (system_prompt user_input : String) (max_iterations : Nat)
    (resp : Nat → RawResponse) (calls : Nat → List ParsedCall)
    (content : Nat → Option String)
    (hret : 1 ≤ max_retries)
    (hgw : ∀ i, tf i 0 = .ok (resp i))
    (hparse : ∀ i, parse_tool_calls jloads (resp i) = .ok (calls i, content i))
    (hne : ∀ i, calls i ≠ []) :
    ∃ mf, run tf jloads tools extract track summarize max_retries
        mem system_prompt user_input max_iterations
        = .ok (max_iterations, mf, iterationLimitMsg) ∧
      mf.history = (maybe_summarize summarize (add_message mem "user" user_input)).history
        ++ [⟨"assistant", iterationLimitMsg⟩] := by
  obtain ⟨mf, h1, h2⟩ := runLoop_limit tf jloads tools extract track max_retries user_input
    resp calls content hret hgw hparse hne max_iterations 0
    ((build_prompt (maybe_summarize summarize (add_message mem "user" user_input))
      system_prompt).map PromptMsg.plain)
    (maybe_summarize summarize (add_message mem "user" user_input))
  rw [Nat.zero_add] at h1
  exact ⟨mf, h1, h2⟩

/-- The response the C2 witness gateway always returns: one tool call with
decodable arguments. -/
def c2resp : RawResponse :=
  ⟨some [⟨some ⟨none, some (some [⟨some "call_1",
    some ⟨"search_movie_by_title", "good"⟩⟩])⟩⟩]⟩

/-- The decoder of the C2 witness. -/
def c2jloads : String → Option Args :=
  fun s => if s = "good" then some [("title", "Inception")] else none

/-- The C2 witness gateway transport: first attempt always succeeds. -/
def c2tf : Nat → Nat → Except String RawResponse := fun _ _ => .ok c2resp

/-- The parsed calls of the C2 witness response. -/
def c2calls : List ParsedCall :=
  [⟨some "call_1", "search_movie_by_title", [("title", "Inception")]⟩]

theorem c2_iteration_limit_witness :
    ∃ mf, run c2tf c2jloads [] (fun _ => []) (fun _ => none) (fun _ => "") 1
        (Memory.init 10 20) "base prompt" "Tell me about Inception" 2
        = .ok (2, mf, iterationLimitMsg) ∧
      mf.history = (maybe_summarize (fun _ => "")
          (add_message (Memory.init 10 20) "user" "Tell me about Inception")).history
        ++ [⟨"assistant", iterationLimitMsg⟩] :=
  c2_iteration_limit c2tf c2jloads [] (fun _ => []) (fun _ => none) (fun _ => "") 1
    (Memory.init 10 20) "base prompt" "Tell me about Inception" 2
    (fun _ => c2resp) (fun _ => c2calls) (fun _ => none)
    (by decide) (fun _ => rfl) (fun _ => rfl) (fun _ => List.cons_ne_nil _ _)

/-! ### Claim C3 -/

/-- C3: with a transport that fails on every attempt, the retry wrapper
performs exactly `max_retries` attempts with delays `2^0, ..., 2^(max_retries-2)`
(in order) and surfaces the terminal failure message, which `run` converts
into exactly one user-visible assistant error turn whose text it returns. -/
theorem c3_retry_exhaustion (tf : Nat → Nat → Except String RawResponse)
    (jloads : String → Option Args) (tools : List (String × PyTool))
    (extract : String → List String) (track : String → Option (String × MovieData))
    (summarize : List Message → String)
    (mem : Memory) (system_prompt user_input : String)
    (max_retries max_iterations : Nat) (e : Nat → String)
    (hret : 1 ≤ max_retries) (hiter : 1 ≤ max_iterations)
    (hfail : ∀ k, tf 0 k = .error (e k)) :
    call_llm_with_retry (tf 0) max_retries =
      (.err (failAfterMsg max_retries (e (max_retries - 1))),
       (List.range (max_retries - 1)).map (fun k => 2 ^ k), max_retries) ∧
    ∃ mf, run tf jloads tools extract track summarize max_retries
        mem system_prompt user_input max_iterations
        = .ok (1, mf, "Error: " ++ failAfterMsg max_retries (e (max_retries - 1))) ∧
      mf.history = (maybe_summarize summarize (add_message mem "user" user_input)).history
        ++ [⟨"assistant", "Error: " ++ failAfterMsg max_retries (e (max_retries - 1))⟩] := by
  have hmain : call_llm_with_retry (tf 0) max_retries =
      (.err (failAfterMsg max_retries (e (max_retries - 1))),
       (List.range' 0 (max_retries - 1)).map (fun k => 2 ^ k), max_retries) := by
    unfold call_llm_with_retry
    exact retryAux_fail (tf 0) max_retries e hfail max_retries 0 (by omega) hret
  constructor
  · rw [hmain, List.range_eq_range']
  · obtain ⟨k, rfl⟩ : ∃ k, max_iterations = k + 1 := ⟨max_iterations - 1, by omega⟩
    have hc1 : (call_llm_with_retry (tf 0) max_retries).1
        = .err (failAfterMsg max_retries (e (max_retries - 1))) := by rw [hmain]
    refine ⟨add_message (maybe_summarize summarize (add_message mem "user" user_input))
      "assistant" ("Error: " ++ failAfterMsg max_retries (e (max_retries - 1))), ?_, rfl⟩
    show runLoop tf jloads tools extract track max_retries user_input (k + 1) 0
        ((build_prompt (maybe_summarize summarize (add_message mem "user" user_input))
          system_prompt).map PromptMsg.plain)
        (maybe_summarize summarize (add_message mem "user" user_input)) = _
    rw [runLoop_succ_eq, hc1, runLoopResp_err_eq]

/-- The always-failing transport of the C3 witness. -/
def c3tf : Nat → Nat → Except String RawResponse := fun _ _ => .error "timeout"

theorem c3_retry_exhaustion_witness :
    (call_llm_with_retry (c3tf 0) 3 =
      (.err (failAfterMsg 3 ((fun _ => "timeout") (3 - 1))),
       (List.range (3 - 1)).map (fun k => 2 ^ k), 3) ∧
    ∃ mf, run c3tf (fun _ => none) [] (fun _ => []) (fun _ => none) (fun _ => "") 3
        (Memory.init 10 20) "base prompt" "Tell me about Inception" 5
        = .ok (1, mf, "Error: " ++ failAfterMsg 3 ((fun _ => "timeout") (3 - 1))) ∧
      mf.history = (maybe_summarize (fun _ => "")
          (add_message (Memory.init 10 20) "user" "Tell me about Inception")).history
        ++ [⟨"assistant", "Error: " ++ failAfterMsg 3 ((fun _ => "timeout") (3 - 1))⟩]) :=
  c3_retry_exhaustion c3tf (fun _ => none) [] (fun _ => []) (fun _ => none) (fun _ => "")
    (Memory.init 10 20) "base prompt" "Tell me about Inception" 3 5 (fun _ => "timeout")
    (by decide) (by decide) (fun _ => rfl)

/-! ### Claim C1 -/

/-- The gateway of the C1 failing input: a well-formed HTTP success whose
body is `\x7b"choices": []\x7d`. -/
def c1gateway : Nat → Nat → Except String RawResponse := fun _ _ => .ok ⟨some []⟩

/-- C1, failing-input evidence: when the gateway returns a response whose
`choices` list is empty, `parse_tool_calls` subscripts the empty list and the
resulting `IndexError` propagates out of `run` uncaught — `run` does not
terminate with a textual answer, contradicting the never-raises contract. -/
theorem c1_empty_choices_uncaught :
    run c1gateway (fun _ => none) [] (fun _ => []) (fun _ => none) (fun _ => "") 3
      (Memory.init 10 20) "base prompt" "Tell me about Inception" 5
      = .error .indexError := rfl
